import Mathlib

/-!
Shallow embedding of the data-acquisition and technical-analysis core of
`src/app.py` (a Streamlit SPX/crypto dashboard), together with theorems
settling the frozen claims about it.

Modelling conventions:
* pandas DataFrames of OHLCV bars are `List Bar` with exact rational
  (`ℚ`) prices; machine floats are modelled as exact rationals and the two
  IEEE special cases the code relies on (`x/0 = inf` for `x > 0`,
  `0/0 = NaN`) are made explicit where they occur (RSI computation).
* A pandas frame whose column set and NaN pattern matter (the input of
  `verify_price_reasonability`) is a `PFrame`: a row count, a column-name
  list, and a cell function returning `none` for a non-finite entry.
* Network calls are oracles: each provider adapter's parsed response is
  passed in as an `Option` argument (`none` = request failed / bad status /
  malformed payload, which the Python code turns into an exception caught
  at that adapter's boundary).
* `random.uniform` draws and the clock are an explicit `SynthRand` record
  of streams, so the synthetic generator is a deterministic function of it.
* Rolling windows that pandas leaves as NaN before warm-up are `Option ℚ`;
  the comparison `NaN > x = False` of `np.where` is `optGT`.
-/

/-- One OHLCV bar (row of the normalized DataFrame).  The Python column
`open` is `openPrice` here because `open` is a Lean keyword. -/
structure Bar where
  timestamp : ℤ
  openPrice : ℚ
  high : ℚ
  low : ℚ
  close : ℚ
  volume : ℚ
  deriving DecidableEq

instance : Inhabited Bar := ⟨⟨0, 0, 0, 0, 0, 0⟩⟩

/-- Price frame as `verify_price_reasonability` sees it: row count, column
names, and cells, where a `none` cell is a non-finite (NaN) entry. -/
structure PFrame where
  nrows : ℕ
  cols : List String
  val : String → ℕ → Option ℚ

/-- Columns `verify_price_reasonability` requires (`required_columns`). -/
def requiredColumns : List String := ["open", "high", "low", "close"]

/-- `True` when some required column is absent from the frame
(`not all(col in df.columns for col in required_columns)`). -/
def pfMissingCols (df : PFrame) : Bool :=
  ¬ requiredColumns.all (fun c => df.cols.contains c)

/-- `True` when a required column holds a non-finite value
(`df[required_columns].isna().any().any()`). -/
def pfHasNaN (df : PFrame) : Bool :=
  requiredColumns.any fun c => (List.range df.nrows).any fun i => (df.val c i).isNone

/-- The `close` column as a list (cells read after the NaN check, so the
`getD 0` default is never observed on frames that pass it). -/
def pfCloses (df : PFrame) : List ℚ :=
  (List.range df.nrows).map fun i => (df.val "close" i).getD 0

/-- `df['close'].iloc[-1]`. -/
def pfLatest (df : PFrame) : ℚ := (pfCloses df).getLastD 0

/-- `df['close'].min()`. -/
def pfMin (df : PFrame) : ℚ := ((pfCloses df).min?).getD 0

/-- `df['close'].max()`. -/
def pfMax (df : PFrame) : ℚ := ((pfCloses df).max?).getD 0

/-- The hardcoded `reasonable_ranges` table of per-asset (min, max) USD
bounds (April-2025 point-in-time constants from the source). -/
def reasonableRanges (coin : String) : Option (ℚ × ℚ) :=
  if coin = "BTC" then some (20000, 200000)
  else if coin = "ETH" then some (800, 15000)
  else if coin = "SOL" then some (30, 800)
  else if coin = "BNB" then some (150, 2000)
  else if coin = "XRP" then some (1/10, 5)
  else if coin = "ADA" then some (1/10, 3)
  else if coin = "DOGE" then some (1/50, 1)
  else if coin = "SHIB" then some (1/1000000, 1/1000)
  else if coin = "DOT" then some (5, 100)
  else if coin = "AVAX" then some (10, 150)
  else if coin = "MATIC" then some (3/10, 5)
  else if coin = "LINK" then some (5, 100)
  else none

/-- The static-range tail of `verify_price_reasonability` (source lines
783-830): per-asset range check with the unit-shift heuristic and the
widened 0.3x-3x range, else the generic micro-coin / moderate-price check. -/
def rangeCheck (coin : String) (latest pmin pmax : ℚ) : Bool :=
  match reasonableRanges coin with
  | some (mn, mx) =>
    if mn ≤ latest ∧ latest ≤ mx then true
    else if latest < mn ∧ mn < latest * 100 ∧ latest * 100 < mx then true
    else if mn * (3/10) ≤ latest ∧ latest ≤ mx * 3 then true
    else false
  | none =>
    if latest < 1/10000 ∧ (if 0 < pmin then pmax / pmin < 5 else False) then true
    else if 0 < latest ∧ latest < 10000 then true
    else false

/-- The CoinGecko reference-price stage (source lines 731-780): given the
lookup outcome `ref` and the latest close, either decide immediately
(reject above 100% deviation, accept below 20%) or fall through to the
static-range verdict `rc`. -/
def refStage (ref : Option ℚ) (latest : ℚ) (rc : Bool) : Bool :=
  match ref with
  | some r =>
    if 0 < r then
      let d := |latest - r| / r * 100
      if 100 < d then false
      else if 50 < d then rc
      else if d < 20 then true
      else rc
    else rc
  | none => rc

/-- `verify_price_reasonability(df, base_coin)` (source lines 666-830).
The best-effort CoinGecko reference lookup is the oracle `ref` (`none` =
request failed / non-200 / coin absent, which the code catches and skips). -/
def verify_price_reasonability (df : PFrame) (base_coin : String) (ref : Option ℚ) : Bool :=
  if df.nrows = 0 then false
  else if pfMissingCols df then false
  else if pfHasNaN df then false
  else if (pfCloses df).any (fun x => decide (x ≤ 0)) then false
  else
    let latest := pfLatest df
    let pmin := pfMin df
    let pmax := pfMax df
    if pmax > pmin * 1000 then false
    else refStage ref latest (rangeCheck base_coin latest pmin pmax)

/-- `True` when the reference-price stage neither accepts nor rejects by
itself: the lookup failed (`none`), returned a non-positive price, or the
deviation falls in the inconclusive 20%-100% band that falls through to
the static-range logic. -/
def refInconclusive (ref : Option ℚ) (latest : ℚ) : Bool :=
  match ref with
  | none => true
  | some r =>
    if 0 < r then
      decide (20 ≤ |latest - r| / r * 100) && decide (|latest - r| / r * 100 ≤ 100)
    else true

/-- One row of a parsed Yahoo Finance chart payload: `quote['open'][i]`
etc., where `none` models a NaN cell (`pd.isna`).  Volume is read without
a NaN check in the source, so it is a plain rational here. -/
structure YRow where
  ts : ℤ
  o : Option ℚ
  h : Option ℚ
  l : Option ℚ
  c : Option ℚ
  v : ℚ
  deriving DecidableEq

/-- One entry of an Alpha Vantage time series: `values.get('1. open', 0)`
etc., where `none` models a key absent from the JSON object. -/
structure AVRow where
  ts : ℤ
  o : Option ℚ
  h : Option ℚ
  l : Option ℚ
  c : Option ℚ
  v : Option ℚ
  deriving DecidableEq

/-- The ambient randomness and clock consumed by the synthetic SPX
generator (source lines 3450-3476): `random.uniform` draws are explicit
streams.  Documented source bounds: `baseNoise` in [-100,100], `change i`
in [-1,1], `openN i` in [-0.005,0.005], `highN i` and `lowN i` in
[0,0.01], `volN i` in [2e8,8e8]. -/
structure SynthRand where
  now : ℤ
  baseNoise : ℚ
  change : ℕ → ℚ
  openN : ℕ → ℚ
  highN : ℕ → ℚ
  lowN : ℕ → ℚ
  volN : ℕ → ℚ

/-- Bar spacing, in minutes, of `pd.date_range(end=now, periods=limit,
freq=timeframe)` for the timeframe vocabulary the app offers; the default
mirrors the source's day-granularity default. -/
def stepMin (tf : String) : ℕ :=
  if tf = "1m" then 1
  else if tf = "5m" then 5
  else if tf = "15m" then 15
  else if tf = "30m" then 30
  else if tf = "1h" then 60
  else if tf = "4h" then 240
  else if tf = "1d" then 1440
  else if tf = "1w" then 10080
  else if tf = "1mo" then 43200
  else 1440

/-- The running `price` variable of the synthetic loop after iteration `i`
(`price = price + change + trend` with `change = price*0.01*u_i` and
`trend = price*0.0005*(i - limit/2)`); the `max(0.01, .)` clamp applies
only to the recorded close, not to the carried price. -/
def synthPrice (base : ℚ) (u : ℕ → ℚ) (limit : ℕ) : ℕ → ℚ
  | 0 => base + base * (1/100) * u 0 + base * (1/2000) * ((0 : ℚ) - (limit : ℚ) / 2)
  | i + 1 =>
    let p := synthPrice base u limit i
    p + p * (1/100) * u (i + 1) + p * (1/2000) * (((i : ℚ) + 1) - (limit : ℚ) / 2)

/-- `close_prices[i] = max(0.01, price)` of the synthetic SPX loop. -/
def synthClose (base : ℚ) (u : ℕ → ℚ) (limit i : ℕ) : ℚ :=
  max (1/100) (synthPrice base u limit i)

/-- The synthetic-SPX DataFrame (source lines 3446-3479): timestamps from
`pd.date_range(end=now, periods=limit, freq=timeframe)` and per-bar
open/high/low/volume derived from the close by bounded random factors. -/
def synthSpx (tf : String) (limit : ℕ) (rnd : SynthRand) : List Bar :=
  let base := 5400 + rnd.baseNoise
  (List.range limit).map fun i =>
    let c := synthClose base rnd.change limit i
    { timestamp := rnd.now - ((limit - 1 - i : ℕ) : ℤ) * (stepMin tf : ℤ)
      openPrice := c * (1 + rnd.openN i)
      high := c * (1 + rnd.highN i)
      low := c * (1 - rnd.lowN i)
      close := c
      volume := rnd.volN i }

/-- `df.tail(limit)` (after the `if len(df) > limit` guard, which is the
identity when the frame is already short enough). -/
def tailTake (limit : ℕ) (l : List α) : List α := l.drop (l.length - limit)

/-- Parsing of a Yahoo chart payload (source lines 3322-3370): rows with a
NaN among open/high/low/close are skipped, then the most recent `limit`
rows are kept.  The 4h-resample branch at lines 3354-3363 is unreachable:
its guard needs the Yahoo timeframe of `'4h'` to be `'1h'`, but the
timeframe map sends `'4h'` to `'4h'`, so it is omitted here. -/
def yahooParse (rows : List YRow) (limit : ℕ) : List Bar :=
  tailTake limit <| rows.filterMap fun r =>
    match r.o, r.h, r.l, r.c with
    | some o, some h, some l, some c =>
      some { timestamp := r.ts, openPrice := o, high := h, low := l, close := c, volume := r.v }
    | _, _, _, _ => none

/-- Stable-enough insertion of a weighted level into a price-ascending
list (ties keep insertion order irrelevant to every claim). -/
def insertAsc (x : ℚ × ℚ) : List (ℚ × ℚ) → List (ℚ × ℚ)
  | [] => [x]
  | y :: ys => if x.1 < y.1 then x :: y :: ys else y :: insertAsc x ys

/-- Sort weighted levels ascending by price (`list.sort(key=price)`). -/
def sortAscPrice (l : List (ℚ × ℚ)) : List (ℚ × ℚ) := l.foldr insertAsc []

/-- Insertion of an AVRow into a timestamp-ascending list. -/
def insertAscTs (x : AVRow) : List AVRow → List AVRow
  | [] => [x]
  | y :: ys => if x.ts < y.ts then x :: y :: ys else y :: insertAscTs x ys

/-- `df.sort_values('timestamp')` for Alpha Vantage rows. -/
def sortAscByTs (l : List AVRow) : List AVRow := l.foldr insertAscTs []

/-- Parsing of an Alpha Vantage time series (source lines 3410-3441):
missing JSON fields default to 0 (`float(values.get(key, 0))`), rows are
sorted ascending by timestamp, and the most recent `limit` are kept. -/
def avParse (rows : List AVRow) (limit : ℕ) : List Bar :=
  tailTake limit <| (sortAscByTs rows).map fun r =>
    { timestamp := r.ts, openPrice := r.o.getD 0, high := r.h.getD 0,
      low := r.l.getD 0, close := r.c.getD 0, volume := r.v.getD 0 }

/-- `get_spx_data(timeframe, limit)` (source lines 3232-3479): Yahoo
Finance first (its parsed frame is returned as-is, even when empty), then
Alpha Vantage when its series is non-empty, then the synthetic generator.
`yahoo = none` / `av = none` model the exceptions and bad statuses the
source catches at each provider boundary. -/
def get_spx_data (tf : String) (limit : ℕ) (yahoo : Option (List YRow))
    (av : Option (List AVRow)) (rnd : SynthRand) : List Bar :=
  match yahoo with
  | some yrows => yahooParse yrows limit
  | none =>
    match av with
    | some arows => if arows.isEmpty then synthSpx tf limit rnd else avParse arows limit
    | none => synthSpx tf limit rnd

/-- `get_crypto_data(symbol, timeframe, limit)` (source lines 1318-1343):
SPX sentinels go to `get_spx_data`, and every other symbol is routed to
`get_spx_data` as well ("this version only analyses SPX"). -/
def get_crypto_data (symbol tf : String) (limit : ℕ) (yahoo : Option (List YRow))
    (av : Option (List AVRow)) (rnd : SynthRand) : List Bar :=
  if symbol ∈ ["SPX", "S&P500", "SP500", "^GSPC", "^SPX"] then
    get_spx_data tf limit yahoo av rnd
  else
    get_spx_data tf limit yahoo av rnd

/-- The caching wrapper around `get_crypto_data` in `main_app` (source
lines 1868-1875): look up `st.session_state.price_data` under the key
`f"{symbol}_{timeframe}"` and fetch on a miss.  Returns the frame and the
cache as it stands after the call; the source never writes to the cache,
which is exactly what claim C3 is about. -/
def analyze_fetch (cache : List (String × List Bar)) (symbol tf : String) (limit : ℕ)
    (yahoo : Option (List YRow)) (av : Option (List AVRow)) (rnd : SynthRand) :
    List Bar × List (String × List Bar) :=
  let key := symbol ++ "_" ++ tf
  match cache.lookup key with
  | some df => (df, cache)
  | none => (get_crypto_data symbol tf limit yahoo av rnd, cache)

/-- View a normalized bar list as the frame `verify_price_reasonability`
receives (all six standard columns present, no non-finite cells). -/
def toPFrame (df : List Bar) : PFrame where
  nrows := df.length
  cols := ["timestamp", "open", "high", "low", "close", "volume"]
  val := fun c i =>
    let b := df.getD i default
    if c = "timestamp" then some (b.timestamp : ℚ)
    else if c = "open" then some b.openPrice
    else if c = "high" then some b.high
    else if c = "low" then some b.low
    else if c = "close" then some b.close
    else if c = "volume" then some b.volume
    else none

/-- Nearest integer with ties to even, the rounding of Python's builtin
`round` (on the exact rational value). -/
def roundHalfEven (q : ℚ) : ℤ :=
  let f := ⌊q⌋
  let r := q - (f : ℚ)
  if r < 1/2 then f
  else if 1/2 < r then f + 1
  else if f % 2 = 0 then f else f + 1

/-- Python's `round(x, 2)`. -/
def round2 (q : ℚ) : ℚ := (roundHalfEven (q * 100) : ℚ) / 100

/-- `df['close']` of a bar list. -/
def closesOf (df : List Bar) : List ℚ := df.map (·.close)

/-- `df['close'].iloc[-1]` / `current_price`. -/
def lastClose (df : List Bar) : ℚ := (closesOf df).getLastD 0

/-- `df['close'].values[i]` (0 past the end, never read there). -/
def closeAt (df : List Bar) (i : ℕ) : ℚ := (df.getD i default).close

/-- `df['high'].values[i]`. -/
def highAt (df : List Bar) (i : ℕ) : ℚ := (df.getD i default).high

/-- `df['low'].values[i]`. -/
def lowAt (df : List Bar) (i : ℕ) : ℚ := (df.getD i default).low

/-- `df['volume'].values[i]`. -/
def volAt (df : List Bar) (i : ℕ) : ℚ := (df.getD i default).volume

/-- Mean of the last `k` entries of a list: the latest-row value of a
`rolling(k).mean()` column (meaningful when `k ≤ length`). -/
def avgLastK (l : List ℚ) (k : ℕ) : ℚ := ((l.drop (l.length - k)).sum) / k

/-- Latest-row `sma20` (`df['close'].rolling(window=20).mean()`). -/
def sma20last (df : List Bar) : ℚ := avgLastK (closesOf df) 20

/-- Latest-row `sma50`, `none` when the 50-bar window has not warmed up
(pandas NaN). -/
def sma50lastOpt (df : List Bar) : Option ℚ :=
  if 50 ≤ df.length then some (avgLastK (closesOf df) 50) else none

/-- Latest-row sample variance of the 20-bar close window (`rolling(20)
.std()` squares to this; pandas uses ddof = 1, hence the 19). -/
def var20last (df : List Bar) : ℚ :=
  let m := sma20last df
  (((closesOf df).drop (df.length - 20)).map fun x => (x - m) ^ 2).sum / 19

/-- `np.where(df['sma20'] > df['sma50'], 'bullish', 'bearish')` at the
latest row: a NaN `sma50` compares as False, hence `'bearish'`. -/
def sma20gtSma50 (df : List Bar) : Bool :=
  match sma50lastOpt df with
  | some s50 => decide (sma20last df > s50)
  | none => false

/-- Result record of `smc_analysis`; the four presentation-string fields
of the source dict (`explanation`, `trend`, `key_levels`,
`recent_patterns`, canned text derived from the fields below) are
omitted. -/
structure SMCResult where
  price : ℚ
  market_structure : String
  liquidity : String
  support_level : ℚ
  resistance_level : ℚ
  trend_strength : ℚ
  recommendation : String
  key_support : ℚ
  key_resistance : ℚ
  deriving DecidableEq

/-- The default dict `smc_analysis` returns below 20 bars (source lines
1356-1373). -/
def defaultSMC : SMCResult where
  price := 0
  market_structure := "neutral"
  liquidity := "normal"
  support_level := 0
  resistance_level := 0
  trend_strength := 1/2
  recommendation := "neutral"
  key_support := 0
  key_resistance := 0

/-- `smc_analysis(df)` (source lines 1346-1427).  `sqrtO` is the
floating-point square root used inside `rolling(20).std()`, passed as an
oracle since `ℚ` has no square root; every claim-relevant field is
independent of it. -/
def smc_analysis (sqrtO : ℚ → ℚ) (df : List Bar) : SMCResult :=
  if df.length < 20 then defaultSMC
  else
    let c := lastClose df
    let s20 := sma20last df
    let sd := sqrtO (var20last df)
    let upper := s20 + sd * 2
    let lower := s20 - sd * 2
    let trendS := if sma20gtSma50 df then "bullish" else "bearish"
    let vols := df.map (·.volume)
    let ratio := c / s20
    let strength :=
      if trendS = "bullish" then max (1/2) (min (9/10) ratio)
      else max (3/10) (min (7/10) (1 - (1 - ratio) * 2))
    { price := c
      market_structure := trendS
      liquidity := if vols.getLastD 0 > avgLastK vols 20 * (3/2) then "high" else "normal"
      support_level := round2 lower
      resistance_level := round2 upper
      trend_strength := round2 strength
      recommendation :=
        if trendS = "bullish" ∧ c > s20 then "buy"
        else if trendS = "bearish" ∧ c < s20 then "sell"
        else "neutral"
      key_support := round2 (lower * (97/100))
      key_resistance := round2 (upper * (103/100)) }

/-- `gain[i]`: the positive part of `df['close'].diff()`, with the NaN of
`diff()` at index 0 turned into 0 by `delta.where(delta > 0, 0)` (a NaN
condition selects the replacement 0). -/
def gainAt (df : List Bar) (i : ℕ) : ℚ :=
  if i = 0 then 0 else max (closeAt df i - closeAt df (i - 1)) 0

/-- `loss[i]`: the negative part of the close diff, made positive. -/
def lossAt (df : List Bar) (i : ℕ) : ℚ :=
  if i = 0 then 0 else max (closeAt df (i - 1) - closeAt df i) 0

/-- `avg_gain[i] = gain.rolling(window=14).mean()` at index `i` (the
window covers indices `i-13 .. i`). -/
def avgGainWin (df : List Bar) (i : ℕ) : ℚ :=
  ((List.range 14).map fun j => gainAt df (i - 13 + j)).sum / 14

/-- `avg_loss[i]` of the same rolling window. -/
def avgLossWin (df : List Bar) (i : ℕ) : ℚ :=
  ((List.range 14).map fun j => lossAt df (i - 13 + j)).sum / 14

/-- `df['rsi'][i]` before `fillna`: `none` during warm-up (rolling NaN)
and for the 0/0 = NaN ratio; an all-gain window divides by zero, which is
IEEE `+inf` and collapses `100 - 100/(1+rs)` to 100. -/
def rsiRawAt (df : List Bar) (i : ℕ) : Option ℚ :=
  if 13 ≤ i ∧ i < df.length then
    let g := avgGainWin df i
    let l := avgLossWin df i
    if l = 0 then (if g = 0 then none else some 100)
    else some (100 - 100 / (1 + g / l))
  else none

/-- `df['rsi'][i]` after `fillna(50)`. -/
def rsiAt (df : List Bar) (i : ℕ) : ℚ := (rsiRawAt df i).getD 50

/-- The strict 3-each-side local-high test of the peak loop (source line
1495): `all(highs[i] > highs[i-j])` and `all(highs[i] > highs[i+j])` for
`j` in 1..3. -/
def isLocalHigh (df : List Bar) (i : ℕ) : Bool :=
  (List.range 3).all fun j =>
    decide (highAt df i > highAt df (i - (j + 1))) &&
    decide (highAt df i > highAt df (i + (j + 1)))

/-- The symmetric strict local-low test on lows (source line 1499). -/
def isLocalLow (df : List Bar) (i : ℕ) : Bool :=
  (List.range 3).all fun j =>
    decide (lowAt df i < lowAt df (i - (j + 1))) &&
    decide (lowAt df i < lowAt df (i + (j + 1)))

/-- Indices scanned by `for i in range(window_size, n - window_size)` that
pass the local-high test. -/
def peakIdx (df : List Bar) : List ℕ :=
  (List.range' 3 (df.length - 6)).filter (isLocalHigh df)

/-- Indices passing the local-low test. -/
def troughIdx (df : List Bar) : List ℕ :=
  (List.range' 3 (df.length - 6)).filter (isLocalLow df)

/-- `np.mean(volumes)`. -/
def meanVol (df : List Bar) : ℚ := (df.map (·.volume)).sum / df.length

/-- `weight = (volume / np.mean(volumes)) * (recency_factor ** (n-i-1))`
with `recency_factor = 0.85`. -/
def weightAt (df : List Bar) (i : ℕ) : ℚ :=
  (volAt df i / meanVol df) * (17/20) ^ (df.length - i - 1)

/-- Candidate resistance levels: peaks priced above the current close,
paired with their weights (source lines 1509-1515). -/
def resLevels0 (df : List Bar) : List (ℚ × ℚ) :=
  (peakIdx df).filterMap fun i =>
    if highAt df i > lastClose df then some (highAt df i, weightAt df i) else none

/-- Candidate support levels: troughs priced below the current close. -/
def supLevels0 (df : List Bar) : List (ℚ × ℚ) :=
  (troughIdx df).filterMap fun i =>
    if lowAt df i < lastClose df then some (lowAt df i, weightAt df i) else none

/-- `np.mean([highs[i] - lows[i] for i in range(n-14, n)])`. -/
def atr14 (df : List Bar) : ℚ :=
  ((List.range 14).map fun j =>
    highAt df (df.length - 14 + j) - lowAt df (df.length - 14 + j)).sum / 14

/-- Resistance candidates after the ATR fallback: when fewer than 2 exist,
three ATR-spaced levels above the close are appended with weights
`0.5/(k+1)` (source lines 1526-1529). -/
def resLevels (df : List Bar) : List (ℚ × ℚ) :=
  if (resLevels0 df).length < 2 then
    resLevels0 df ++ (List.range 3).map fun k =>
      (lastClose df + ((k : ℚ) + 1) * atr14 df, (1/2) / ((k : ℚ) + 1))
  else resLevels0 df

/-- Support candidates after the symmetric ATR fallback below the close. -/
def supLevels (df : List Bar) : List (ℚ × ℚ) :=
  if (supLevels0 df).length < 2 then
    supLevels0 df ++ (List.range 3).map fun k =>
      (lastClose df - ((k : ℚ) + 1) * atr14 df, (1/2) / ((k : ℚ) + 1))
  else supLevels0 df

/-- Result record of `snr_analysis`; as with `SMCResult` the five canned
presentation-string fields are omitted, and the `all_*_levels` keys
(absent from the source's default dict) are `[]` in the default. -/
structure SNRResult where
  price : ℚ
  overbought : Bool
  oversold : Bool
  rsi : ℚ
  near_support : ℚ
  strong_support : ℚ
  near_resistance : ℚ
  strong_resistance : ℚ
  support_strength : ℚ
  resistance_strength : ℚ
  recommendation : String
  momentum_up : Bool
  momentum_down : Bool
  all_support_levels : List ℚ
  all_resistance_levels : List ℚ
  deriving DecidableEq

/-- The default dict `snr_analysis` returns below 14 bars (source lines
1440-1462). -/
def defaultSNR : SNRResult where
  price := 0
  overbought := false
  oversold := false
  rsi := 50
  near_support := 0
  strong_support := 0
  near_resistance := 0
  strong_resistance := 0
  support_strength := 1
  resistance_strength := 1
  recommendation := "neutral"
  momentum_up := false
  momentum_down := false
  all_support_levels := []
  all_resistance_levels := []

/-- `snr_analysis(df)` (source lines 1430-1585). -/
def snr_analysis (df : List Bar) : SNRResult :=
  if df.length < 14 then defaultSNR
  else
    let n := df.length
    let c := lastClose df
    let rsiL := rsiAt df (n - 1)
    let sortedRes := sortAscPrice (resLevels df)
    let sortedSup := (sortAscPrice (supLevels df)).reverse
    let nearRes := ((sortedRes.head?).map Prod.fst).getD (c * (21/20))
    let nearSup := ((sortedSup.head?).map Prod.fst).getD (c * (19/20))
    let strongRes := if 1 < sortedRes.length then (sortedRes.getD 1 (0, 0)).1
      else nearRes * (21/20)
    let strongSup := if 1 < sortedSup.length then (sortedSup.getD 1 (0, 0)).1
      else nearSup * (19/20)
    let supStr := if supLevels df ≠ [] then ((supLevels df).map Prod.snd).sum else 1
    let resStr := if resLevels df ≠ [] then ((resLevels df).map Prod.snd).sum else 1
    let rsiChange := if 5 < n then rsiAt df (n - 1) - rsiAt df (n - 6) else 0
    { price := c
      overbought := decide (rsiL > 70)
      oversold := decide (rsiL < 30)
      rsi := round2 rsiL
      near_support := round2 nearSup
      strong_support := round2 strongSup
      near_resistance := round2 nearRes
      strong_resistance := round2 strongRes
      support_strength := round2 (min supStr 2)
      resistance_strength := round2 (min resStr 2)
      recommendation := if rsiL < 30 then "buy" else if rsiL > 70 then "sell" else "neutral"
      momentum_up := decide (rsiChange > 5)
      momentum_down := decide (rsiChange < -5)
      all_support_levels := (sortedSup.take 5).map fun p => round2 p.1
      all_resistance_levels := (sortedRes.take 5).map fun p => round2 p.1 }

/-- A fixed all-zero randomness stream for concrete evaluations. -/
def rnd0 : SynthRand :=
  { now := 0, baseNoise := 0, change := fun _ => 0, openN := fun _ => 0,
    highN := fun _ => 0, lowN := fun _ => 0, volN := fun _ => 0 }

/-- The same stream with a different base-price draw (a second live call
would see fresh randomness). -/
def rndB : SynthRand := { rnd0 with baseNoise := 100 }

/-- A Yahoo payload that parses to one non-empty row with close 0 (Yahoo
only NaN-filters; a zero close survives parsing). -/
def badYahooRows : List YRow :=
  [{ ts := 0, o := some 5000, h := some 5100, l := some 4900, c := some 0, v := 1000 }]

/-- The bar `badYahooRows` parses to. -/
def badBar : Bar :=
  { timestamp := 0, openPrice := 5000, high := 5100, low := 4900, close := 0, volume := 1000 }

/-- A healthy one-row Alpha Vantage series, available as the next adapter. -/
def goodAvRows : List AVRow :=
  [{ ts := 0, o := some 5400, h := some 5450, l := some 5350, c := some 5400, v := some 1000 }]

/-- A well-formed one-row frame whose four required columns all hold `p`. -/
def constPF (p : ℚ) : PFrame where
  nrows := 1
  cols := requiredColumns
  val := fun c i => if c ∈ requiredColumns ∧ i = 0 then some p else none

/-- A flat bar: all four prices `p`, volume 1. -/
def flatBar (t : ℤ) (p : ℚ) : Bar :=
  { timestamp := t, openPrice := p, high := p, low := p, close := p, volume := 1 }

/-- Twenty flat bars (the `smc_analysis` boundary input). -/
def demo20 : List Bar := (List.range 20).map fun i => flatBar i 1

/-- Fourteen flat bars (the `snr_analysis` boundary input). -/
def demo14 : List Bar := (List.range 14).map fun i => flatBar i 1

/-- A single bar (below both analysis minimums). -/
def oneBar : List Bar := [flatBar 0 1]

/-- Eight bars whose highs are flat except a strict spike at index 3: the
unique local high of the peak scan. -/
def c8demo : List Bar :=
  [flatBar 0 1, flatBar 1 1, flatBar 2 1,
   { timestamp := 3, openPrice := 1, high := 9, low := 1, close := 1, volume := 1 },
   flatBar 4 1, flatBar 5 1, flatBar 6 1, flatBar 7 1]

/-- Fifteen bars whose closes rise by exactly 1 each step: fourteen equal
positive close-to-close changes. -/
def c9demo : List Bar :=
  [flatBar 0 100, flatBar 1 101, flatBar 2 102, flatBar 3 103, flatBar 4 104,
   flatBar 5 105, flatBar 6 106, flatBar 7 107, flatBar 8 108, flatBar 9 109,
   flatBar 10 110, flatBar 11 111, flatBar 12 112, flatBar 13 113, flatBar 14 114]

/-- A frame with no rows at all. -/
def emptyPF : PFrame where
  nrows := 0
  cols := []
  val := fun _ _ => none

theorem refStage_eq_of_inconclusive (ref : Option ℚ) (latest : ℚ) (rc : Bool)
    (h : refInconclusive ref latest = true) : refStage ref latest rc = rc := by
  cases ref with
  | none => rfl
  | some r =>
    simp only [refInconclusive] at h
    simp only [refStage]
    by_cases hr : 0 < r
    · rw [if_pos hr] at h ⊢
      rw [Bool.and_eq_true, decide_eq_true_eq, decide_eq_true_eq] at h
      rw [if_neg (by linarith [h.2])]
      by_cases hd : 50 < |latest - r| / r * 100
      · rw [if_pos hd]
      · rw [if_neg hd, if_neg (by linarith [h.1])]
    · rw [if_neg hr]

theorem rangeCheck_eq_true_iff (coin : String) (latest pmin pmax mn mx : ℚ)
    (h : reasonableRanges coin = some (mn, mx)) :
    rangeCheck coin latest pmin pmax = true ↔
      (mn ≤ latest ∧ latest ≤ mx) ∨
      (latest < mn ∧ mn < latest * 100 ∧ latest * 100 < mx) ∨
      (mn * (3/10) ≤ latest ∧ latest ≤ mx * 3) := by
  simp only [rangeCheck, h]
  split_ifs with h1 h2 h3 <;> simp_all

/-- Claim C5: the price-plausibility validator rejects every sequence that
is empty, lacks a required price column, holds a non-finite value in a
required column, or has any close at or below zero. -/
theorem verify_rejects_malformed (df : PFrame) (coin : String) (ref : Option ℚ)
    (h : df.nrows = 0 ∨ pfMissingCols df = true ∨ pfHasNaN df = true ∨
      (pfCloses df).any (fun x => decide (x ≤ 0)) = true) :
    verify_price_reasonability df coin ref = false := by
  unfold verify_price_reasonability
  rcases h with h | h | h | h
  · simp [h]
  · by_cases h0 : df.nrows = 0 <;> simp [h0, h]
  · by_cases h0 : df.nrows = 0 <;> by_cases h1 : pfMissingCols df <;> simp [h0, h1, h]
  · by_cases h0 : df.nrows = 0 <;> by_cases h1 : pfMissingCols df <;>
      by_cases h2 : pfHasNaN df <;> simp [h0, h1, h2, h]

/-- Witness for C5 at the empty frame. -/
theorem verify_rejects_malformed_w :
    verify_price_reasonability emptyPF "BTC" none = false :=
  verify_rejects_malformed emptyPF "BTC" none (Or.inl rfl)

/-- Claim C6: for an asset with a static range and an unavailable or
inconclusive reference price, the validator accepts a well-formed sequence
exactly when the last close is in [min, max], or 100 times it lands
inside the range (the unit-shift heuristic, strict per the source), or it
lies within the widened range [0.3*min, 3*max]; in particular BTC at
150000 with range (20000, 200000) is accepted and BTC at 5 is rejected. -/
theorem verify_static_range_spec :
    (∀ (df : PFrame) (coin : String) (ref : Option ℚ) (mn mx : ℚ),
      df.nrows ≠ 0 → pfMissingCols df = false → pfHasNaN df = false →
      (pfCloses df).any (fun x => decide (x ≤ 0)) = false →
      ¬ pfMax df > pfMin df * 1000 →
      reasonableRanges coin = some (mn, mx) →
      refInconclusive ref (pfLatest df) = true →
      (verify_price_reasonability df coin ref = true ↔
        (mn ≤ pfLatest df ∧ pfLatest df ≤ mx) ∨
        (pfLatest df < mn ∧ mn < pfLatest df * 100 ∧ pfLatest df * 100 < mx) ∨
        (mn * (3/10) ≤ pfLatest df ∧ pfLatest df ≤ mx * 3))) ∧
    verify_price_reasonability (constPF 150000) "BTC" none = true ∧
    verify_price_reasonability (constPF 5) "BTC" none = false := by
  have main : ∀ (df : PFrame) (coin : String) (ref : Option ℚ) (mn mx : ℚ),
      df.nrows ≠ 0 → pfMissingCols df = false → pfHasNaN df = false →
      (pfCloses df).any (fun x => decide (x ≤ 0)) = false →
      ¬ pfMax df > pfMin df * 1000 →
      reasonableRanges coin = some (mn, mx) →
      refInconclusive ref (pfLatest df) = true →
      (verify_price_reasonability df coin ref = true ↔
        (mn ≤ pfLatest df ∧ pfLatest df ≤ mx) ∨
        (pfLatest df < mn ∧ mn < pfLatest df * 100 ∧ pfLatest df * 100 < mx) ∨
        (mn * (3/10) ≤ pfLatest df ∧ pfLatest df ≤ mx * 3)) := by
    intro df coin ref mn mx h0 h1 h2 h3 h4 h5 h6
    unfold verify_price_reasonability
    rw [if_neg h0]
    simp only [h1, h2, h3, Bool.false_eq_true, if_false]
    rw [if_neg h4, refStage_eq_of_inconclusive ref (pfLatest df) _ h6]
    exact rangeCheck_eq_true_iff coin _ _ _ mn mx h5
  refine ⟨main, ?_, ?_⟩
  · refine (main (constPF 150000) "BTC" none 20000 200000 (by decide) (by decide)
      (by decide) (by decide) ?_ (by decide) rfl).mpr (Or.inl (by decide))
    have hm : pfMax (constPF 150000) = 150000 := by decide
    have hn : pfMin (constPF 150000) = 150000 := by decide
    rw [hm, hn]; norm_num
  · have hl : pfLatest (constPF 5) = 5 := by decide
    have h := main (constPF 5) "BTC" none 20000 200000 (by decide) (by decide)
      (by decide) (by decide) ?_ (by decide) rfl
    · rw [hl] at h
      cases hv : verify_price_reasonability (constPF 5) "BTC" none with
      | false => rfl
      | true => exact absurd (h.mp hv) (by norm_num)
    · have hm : pfMax (constPF 5) = 5 := by decide
      have hn : pfMin (constPF 5) = 5 := by decide
      rw [hm, hn]; norm_num

/-- Witness for C6: the range test applied to ETH at a price inside its
static range. -/
theorem verify_static_range_spec_w :
    verify_price_reasonability (constPF 1000) "ETH" none = true := by
  refine (verify_static_range_spec.1 (constPF 1000) "ETH" none 800 15000 (by decide)
    (by decide) (by decide) (by decide) ?_ (by decide) rfl).mpr (Or.inl (by decide))
  have hm : pfMax (constPF 1000) = 1000 := by decide
  have hn : pfMin (constPF 1000) = 1000 := by decide
  rw [hm, hn]; norm_num

/-- The per-timeframe bar spacing is always positive. -/
theorem one_le_stepMin (tf : String) : 1 ≤ stepMin tf := by
  unfold stepMin
  split_ifs <;> norm_num

/-- Claim C1: the acquisition entry point is a total function — modelled
over the provider oracles it returns a bar list for every input, and when
every real provider fails it returns the synthetic sequence, whose length
is exactly the requested limit (non-empty whenever the limit is). -/
theorem get_market_data_total (symbol tf : String) (limit : ℕ)
    (yahoo : Option (List YRow)) (av : Option (List AVRow)) (rnd : SynthRand)
    (hy : yahoo = none) (ha : av = none ∨ av = some []) :
    (get_crypto_data symbol tf limit yahoo av rnd).length = limit ∧
    (1 ≤ limit → get_crypto_data symbol tf limit yahoo av rnd ≠ []) := by
  have hsynth : get_crypto_data symbol tf limit yahoo av rnd = synthSpx tf limit rnd := by
    subst hy
    rcases ha with h | h <;> subst h <;> (unfold get_crypto_data; split <;> rfl)
  rw [hsynth]
  have hlen : (synthSpx tf limit rnd).length = limit := by
    simp [synthSpx]
  refine ⟨hlen, fun h1 => ?_⟩
  intro hnil
  rw [hnil] at hlen
  simp at hlen
  omega

/-- Witness for C1: both real providers down, limit 3. -/
theorem get_market_data_total_w :
    (get_crypto_data "BTC/USDT" "1h" 3 none none rnd0).length = 3 ∧
    (1 ≤ 3 → get_crypto_data "BTC/USDT" "1h" 3 none none rnd0 ≠ []) :=
  get_market_data_total "BTC/USDT" "1h" 3 none none rnd0 rfl (Or.inl rfl)

/-- Counterexample to claim C2 as stated: the first adapter (Yahoo)
returns a non-empty sequence that the price-plausibility validator
rejects (its close is 0), yet the orchestrator returns exactly that
sequence instead of continuing to the next adapter, whose healthy data
was available and parses to something else. -/
theorem acquisition_skips_validator :
    get_spx_data "1d" 100 (some badYahooRows) (some goodAvRows) rnd0 = [badBar] ∧
    verify_price_reasonability (toPFrame [badBar]) "SPX" none = false ∧
    get_spx_data "1d" 100 none (some goodAvRows) rnd0 ≠ [badBar] :=
  ⟨rfl, by decide, by decide⟩

/-- Claim C2 as amended: `get_crypto_data` routes every request to
`get_spx_data`, whose fixed adapter order is Yahoo Finance, then Alpha
Vantage (when its series is non-empty), then the synthetic generator;
whichever adapter answers first is returned as-is — no validator runs
(the returned data can be validator-rejected) and nothing is cached. -/
theorem acquisition_chain_order :
    (∀ (symbol tf : String) (limit : ℕ) (y : List YRow) (av : Option (List AVRow))
      (rnd : SynthRand),
      get_crypto_data symbol tf limit (some y) av rnd = yahooParse y limit) ∧
    (∀ (symbol tf : String) (limit : ℕ) (rows : List AVRow) (rnd : SynthRand),
      rows ≠ [] →
      get_crypto_data symbol tf limit none (some rows) rnd = avParse rows limit) ∧
    (∀ (symbol tf : String) (limit : ℕ) (rnd : SynthRand),
      get_crypto_data symbol tf limit none none rnd = synthSpx tf limit rnd) ∧
    verify_price_reasonability
      (toPFrame (get_crypto_data "SPX" "1d" 100 (some badYahooRows) (some goodAvRows) rnd0))
      "SPX" none = false := by
  refine ⟨?_, ?_, ?_, by decide⟩
  · intro symbol tf limit y av rnd
    unfold get_crypto_data
    split <;> rfl
  · intro symbol tf limit rows rnd h
    unfold get_crypto_data
    split <;> simp [get_spx_data, List.isEmpty_iff, h]
  · intro symbol tf limit rnd
    unfold get_crypto_data
    split <;> rfl

/-- Witness for the amended C2 at a concrete Alpha Vantage fallback. -/
theorem acquisition_chain_order_w :
    get_crypto_data "SPX" "1d" 2 none (some goodAvRows) rnd0 = avParse goodAvRows 2 :=
  acquisition_chain_order.2.1 "SPX" "1d" 2 goodAvRows rnd0 (by decide)

/-- Claim C3 (the code bug): the session cache is consulted but never
written — after any call the cache is exactly what it was before, so a
repeated identical request re-fetches instead of hitting the cache, and
under fresh randomness (or fresh provider data) returns a different
sequence. -/
theorem session_cache_never_written :
    (∀ (cache : List (String × List Bar)) (symbol tf : String) (limit : ℕ)
      (yahoo : Option (List YRow)) (av : Option (List AVRow)) (rnd : SynthRand),
      (analyze_fetch cache symbol tf limit yahoo av rnd).2 = cache) ∧
    (analyze_fetch [] "SPX" "1h" 1 none none rnd0).1 =
      get_crypto_data "SPX" "1h" 1 none none rnd0 ∧
    (analyze_fetch [] "SPX" "1h" 1 none none rndB).1 ≠
      (analyze_fetch [] "SPX" "1h" 1 none none rnd0).1 := by
  refine ⟨?_, rfl, ?_⟩
  · intro cache symbol tf limit yahoo av rnd
    unfold analyze_fetch
    cases h : cache.lookup (symbol ++ "_" ++ tf) <;> simp [h]
  · norm_num [analyze_fetch, get_crypto_data, get_spx_data, synthSpx, synthClose,
      synthPrice, rnd0, rndB, stepMin, List.range_succ, List.range_zero, Bar.mk.injEq,
      max_def]

/-- Counterexample to claim C4 as stated: a Yahoo payload whose single row
has close 0 is returned as-is, so the returned sequence violates
`close > 0`. -/
theorem provider_data_unvalidated :
    ((get_spx_data "1d" 100 (some badYahooRows) none rnd0).all
      fun b => decide (0 < b.close)) = false := by
  decide

/-- Claim C4 as amended: the well-formedness guarantees hold on the
synthetic fallback path (all real providers failed): the result is
non-empty, of length equal to (hence at most) the requested limit, has
strictly increasing timestamps, and every bar has `low ≤ close ≤ high`
and `close > 0` — given the high/low factor draws in their documented
non-negative ranges.  Provider-returned sequences are passed through
without these checks. -/
theorem synthetic_fallback_wellformed (tf : String) (limit : ℕ)
    (yahoo : Option (List YRow)) (av : Option (List AVRow)) (rnd : SynthRand)
    (hy : yahoo = none) (ha : av = none ∨ av = some []) (h1 : 1 ≤ limit)
    (hhi : ∀ i, 0 ≤ rnd.highN i) (hlo : ∀ i, 0 ≤ rnd.lowN i) :
    get_spx_data tf limit yahoo av rnd ≠ [] ∧
    (get_spx_data tf limit yahoo av rnd).length ≤ limit ∧
    (get_spx_data tf limit yahoo av rnd).Pairwise (fun a b => a.timestamp < b.timestamp) ∧
    ∀ b ∈ get_spx_data tf limit yahoo av rnd,
      b.low ≤ b.close ∧ b.close ≤ b.high ∧ 0 < b.close := by
  have hres : get_spx_data tf limit yahoo av rnd = synthSpx tf limit rnd := by
    subst hy; rcases ha with h | h <;> subst h <;> rfl
  rw [hres]
  have hlen : (synthSpx tf limit rnd).length = limit := by simp [synthSpx]
  have hclose : ∀ i, 0 < synthClose (5400 + rnd.baseNoise) rnd.change limit i := by
    intro i
    calc (0:ℚ) < 1/100 := by norm_num
    _ ≤ _ := le_max_left _ _
  refine ⟨?_, le_of_eq hlen, ?_, ?_⟩
  · intro hnil; rw [hnil] at hlen; simp at hlen; omega
  · unfold synthSpx
    rw [List.pairwise_map]
    refine (List.pairwise_lt_range limit).imp_of_mem ?_
    intro a b ha hb hab
    have hs : (0:ℤ) < (stepMin tf : ℤ) := by
      have := one_le_stepMin tf; omega
    have hn : ((limit - 1 - b : ℕ) : ℤ) < ((limit - 1 - a : ℕ) : ℤ) := by
      have hb' := List.mem_range.mp hb
      have : limit - 1 - b < limit - 1 - a := by omega
      exact_mod_cast this
    exact sub_lt_sub_left (mul_lt_mul_of_pos_right hn hs) rnd.now
  · intro b hb
    simp only [synthSpx, List.mem_map] at hb
    obtain ⟨i, hi, rfl⟩ := hb
    exact ⟨mul_le_of_le_one_right (hclose i).le (by linarith [hlo i]),
      le_mul_of_one_le_right (hclose i).le (by linarith [hhi i]), hclose i⟩

/-- Witness for the amended C4 at two synthetic bars. -/
theorem synthetic_fallback_wellformed_w :
    get_spx_data "1h" 2 none none rnd0 ≠ [] ∧
    (get_spx_data "1h" 2 none none rnd0).length ≤ 2 ∧
    (get_spx_data "1h" 2 none none rnd0).Pairwise (fun a b => a.timestamp < b.timestamp) ∧
    ∀ b ∈ get_spx_data "1h" 2 none none rnd0,
      b.low ≤ b.close ∧ b.close ≤ b.high ∧ 0 < b.close :=
  synthetic_fallback_wellformed "1h" 2 none none rnd0 rfl (Or.inl rfl) (by norm_num)
    (fun _ => le_refl 0) (fun _ => le_refl 0)

/-- Counterexample to claim C7 as stated: on a short input the default
result does not zero its confidence field — `trend_strength` is 0.5. -/
theorem default_not_zeroed :
    (smc_analysis (fun _ => 0) oneBar).trend_strength ≠ 0 := by
  norm_num [smc_analysis, oneBar, defaultSMC]

/-- Claim C7 as amended: below 20 (resp. 14) bars `smc_analysis` (resp.
`snr_analysis`) returns the fixed neutral default — whose market
structure is "neutral" and whose price/level fields are zero but whose
confidence-bearing fields sit at neutral midpoints (trend strength 0.5,
RSI 50, strengths 1.0) — and at 20 (resp. 14) bars both compute real,
non-default values. -/
theorem analysis_minimum_bars :
    (∀ (sq : ℚ → ℚ) (df : List Bar), df.length < 20 → smc_analysis sq df = defaultSMC) ∧
    (∀ df : List Bar, df.length < 14 → snr_analysis df = defaultSNR) ∧
    (∀ (sq : ℚ → ℚ) (df : List Bar), 20 ≤ df.length →
      (smc_analysis sq df).market_structure ≠ "neutral" ∧
      smc_analysis sq df ≠ defaultSMC) ∧
    (∀ df : List Bar, 14 ≤ df.length → 0 < lastClose df → snr_analysis df ≠ defaultSNR) := by
  refine ⟨?_, ?_, ?_, ?_⟩
  · intro sq df h
    unfold smc_analysis
    rw [if_pos h]
  · intro df h
    unfold snr_analysis
    rw [if_pos h]
  · intro sq df h
    have hms : (smc_analysis sq df).market_structure =
        if sma20gtSma50 df then "bullish" else "bearish" := by
      unfold smc_analysis
      rw [if_neg (by omega)]
    constructor
    · rw [hms]; split_ifs <;> decide
    · intro heq
      rw [heq] at hms
      revert hms
      split_ifs <;> decide
  · intro df h hc
    have hp : (snr_analysis df).price = lastClose df := by
      unfold snr_analysis
      rw [if_neg (by omega)]
    intro heq
    rw [heq] at hp
    simp only [defaultSNR] at hp
    exact absurd hp.symm (ne_of_gt hc)

/-- Witness for the amended C7 at the boundary inputs. -/
theorem analysis_minimum_bars_w :
    smc_analysis (fun _ => 0) oneBar = defaultSMC ∧
    snr_analysis oneBar = defaultSNR ∧
    smc_analysis (fun _ => 0) demo20 ≠ defaultSMC ∧
    snr_analysis demo14 ≠ defaultSNR :=
  ⟨analysis_minimum_bars.1 _ oneBar (by decide),
   analysis_minimum_bars.2.1 oneBar (by decide),
   (analysis_minimum_bars.2.2.1 _ demo20 (by decide)).2,
   analysis_minimum_bars.2.2.2 demo14 (by decide) (by decide)⟩

/-- Claim C8: a scanned index is a peak (resp. trough) exactly when its
high (resp. low) strictly beats the three bars on each side — so ties and
plateaus never qualify — and the candidate resistance (resp. support)
levels are exactly the peaks above (resp. troughs below) the current
close, weighted by relative volume times `0.85^(bars since)`. -/
theorem peak_detection_spec :
    (∀ (df : List Bar) (i : ℕ), i ∈ peakIdx df ↔
      3 ≤ i ∧ i + 3 < df.length ∧
      ∀ j ∈ List.range' 1 3,
        highAt df (i - j) < highAt df i ∧ highAt df (i + j) < highAt df i) ∧
    (∀ (df : List Bar) (i : ℕ), i ∈ troughIdx df ↔
      3 ≤ i ∧ i + 3 < df.length ∧
      ∀ j ∈ List.range' 1 3,
        lowAt df i < lowAt df (i - j) ∧ lowAt df i < lowAt df (i + j)) ∧
    (∀ (df : List Bar) (p w : ℚ), (p, w) ∈ resLevels0 df ↔
      ∃ i ∈ peakIdx df, lastClose df < highAt df i ∧ p = highAt df i ∧
        w = (volAt df i / meanVol df) * (17/20) ^ (df.length - i - 1)) ∧
    (∀ (df : List Bar) (p w : ℚ), (p, w) ∈ supLevels0 df ↔
      ∃ i ∈ troughIdx df, lowAt df i < lastClose df ∧ p = lowAt df i ∧
        w = (volAt df i / meanVol df) * (17/20) ^ (df.length - i - 1)) := by
  refine ⟨?_, ?_, ?_, ?_⟩
  · intro df i
    constructor
    · intro hmem
      rw [peakIdx, List.mem_filter, List.mem_range'_1] at hmem
      obtain ⟨hr, hp⟩ := hmem
      rw [isLocalHigh, List.all_eq_true] at hp
      refine ⟨hr.1, by omega, ?_⟩
      intro j hj
      rw [List.mem_range'_1] at hj
      have hall := hp (j - 1) (List.mem_range.mpr (by omega))
      rw [Bool.and_eq_true, decide_eq_true_eq, decide_eq_true_eq] at hall
      have e1 : j - 1 + 1 = j := by omega
      rw [e1] at hall
      exact hall
    · rintro ⟨h3, hn, hall⟩
      rw [peakIdx, List.mem_filter, List.mem_range'_1]
      refine ⟨⟨h3, by omega⟩, ?_⟩
      rw [isLocalHigh, List.all_eq_true]
      intro j hj
      rw [List.mem_range] at hj
      rw [Bool.and_eq_true, decide_eq_true_eq, decide_eq_true_eq]
      exact hall (j + 1) (List.mem_range'_1.mpr ⟨by omega, by omega⟩)
  · intro df i
    constructor
    · intro hmem
      rw [troughIdx, List.mem_filter, List.mem_range'_1] at hmem
      obtain ⟨hr, hp⟩ := hmem
      rw [isLocalLow, List.all_eq_true] at hp
      refine ⟨hr.1, by omega, ?_⟩
      intro j hj
      rw [List.mem_range'_1] at hj
      have hall := hp (j - 1) (List.mem_range.mpr (by omega))
      rw [Bool.and_eq_true, decide_eq_true_eq, decide_eq_true_eq] at hall
      have e1 : j - 1 + 1 = j := by omega
      rw [e1] at hall
      exact hall
    · rintro ⟨h3, hn, hall⟩
      rw [troughIdx, List.mem_filter, List.mem_range'_1]
      refine ⟨⟨h3, by omega⟩, ?_⟩
      rw [isLocalLow, List.all_eq_true]
      intro j hj
      rw [List.mem_range] at hj
      rw [Bool.and_eq_true, decide_eq_true_eq, decide_eq_true_eq]
      exact hall (j + 1) (List.mem_range'_1.mpr ⟨by omega, by omega⟩)
  · intro df p w
    rw [resLevels0, List.mem_filterMap]
    constructor
    · rintro ⟨i, hi, hf⟩
      by_cases hgt : highAt df i > lastClose df
      · rw [if_pos hgt, Option.some.injEq, Prod.mk.injEq] at hf
        exact ⟨i, hi, hgt, hf.1.symm, hf.2.symm⟩
      · rw [if_neg hgt] at hf
        exact absurd hf (by simp)
    · rintro ⟨i, hi, hgt, hp', hw⟩
      refine ⟨i, hi, ?_⟩
      rw [if_pos hgt, Option.some.injEq, Prod.mk.injEq]
      exact ⟨hp'.symm, hw.symm⟩
  · intro df p w
    rw [supLevels0, List.mem_filterMap]
    constructor
    · rintro ⟨i, hi, hf⟩
      by_cases hlt : lowAt df i < lastClose df
      · rw [if_pos hlt, Option.some.injEq, Prod.mk.injEq] at hf
        exact ⟨i, hi, hlt, hf.1.symm, hf.2.symm⟩
      · rw [if_neg hlt] at hf
        exact absurd hf (by simp)
    · rintro ⟨i, hi, hlt, hp', hw⟩
      refine ⟨i, hi, ?_⟩
      rw [if_pos hlt, Option.some.injEq, Prod.mk.injEq]
      exact ⟨hp'.symm, hw.symm⟩

/-- Witness for C8: the spike at index 3 of `c8demo` shows up as a
weighted resistance candidate. -/
theorem peak_detection_spec_w :
    ((9 : ℚ), weightAt c8demo 3) ∈ resLevels0 c8demo :=
  (peak_detection_spec.2.2.1 c8demo 9 (weightAt c8demo 3)).mpr
    ⟨3, by decide, by decide, by decide, rfl⟩

theorem round2_100 : round2 100 = 100 := by
  unfold round2 roundHalfEven
  have h1 : ((100:ℚ) * 100) = ((10000:ℤ) : ℚ) := by norm_num
  rw [h1, Int.floor_intCast]
  simp only [sub_self]
  rw [if_pos (by norm_num : (0:ℚ) < 1/2)]
  push_cast
  norm_num

/-- Claim C9: when the last 14 close-to-close changes are all the same
positive amount, the average loss vanishes, RSI evaluates to 100, and the
sequence is flagged overbought. -/
theorem rsi_equal_upmoves (df : List Bar) (d : ℚ) (h15 : 15 ≤ df.length) (hd : 0 < d)
    (hdelta : ∀ k ∈ List.range' (df.length - 14) 14,
      closeAt df k - closeAt df (k - 1) = d) :
    (snr_analysis df).rsi = 100 ∧ (snr_analysis df).overbought = true := by
  have hloss : avgLossWin df (df.length - 1) = 0 := by
    unfold avgLossWin
    rw [List.sum_eq_zero, zero_div]
    intro x hx
    rw [List.mem_map] at hx
    obtain ⟨j, hj, rfl⟩ := hx
    rw [List.mem_range] at hj
    have hidx : df.length - 1 - 13 + j = df.length - 14 + j := by omega
    rw [hidx]
    unfold lossAt
    rw [if_neg (by omega)]
    have hk := hdelta (df.length - 14 + j) (List.mem_range'_1.mpr ⟨by omega, by omega⟩)
    have hneg : closeAt df (df.length - 14 + j - 1) - closeAt df (df.length - 14 + j) = -d := by
      linarith [hk]
    rw [hneg]
    exact max_eq_right (by linarith)
  have hgain : avgGainWin df (df.length - 1) = d := by
    unfold avgGainWin
    have hrep : (List.range 14).map (fun j => gainAt df (df.length - 1 - 13 + j)) =
        List.replicate 14 d := by
      refine List.eq_replicate_iff.mpr ⟨by simp, ?_⟩
      intro b hb
      rw [List.mem_map] at hb
      obtain ⟨j, hj, rfl⟩ := hb
      rw [List.mem_range] at hj
      have hidx : df.length - 1 - 13 + j = df.length - 14 + j := by omega
      rw [hidx]
      unfold gainAt
      rw [if_neg (by omega)]
      rw [hdelta (df.length - 14 + j) (List.mem_range'_1.mpr ⟨by omega, by omega⟩)]
      exact max_eq_left hd.le
    rw [hrep, List.sum_replicate, nsmul_eq_mul]
    push_cast
    exact mul_div_cancel_left₀ d (by norm_num)
  have hrsi : rsiAt df (df.length - 1) = 100 := by
    unfold rsiAt rsiRawAt
    rw [if_pos ⟨by omega, by omega⟩]
    simp only [hloss, hgain, if_true]
    rw [if_neg (ne_of_gt hd)]
    rfl
  constructor
  · have hfield : (snr_analysis df).rsi = round2 (rsiAt df (df.length - 1)) := by
      unfold snr_analysis
      rw [if_neg (by omega)]
    rw [hfield, hrsi, round2_100]
  · have hfield : (snr_analysis df).overbought =
        decide (rsiAt df (df.length - 1) > 70) := by
      unfold snr_analysis
      rw [if_neg (by omega)]
    rw [hfield, hrsi]
    norm_num

/-- Witness for C9: fifteen bars with closes rising by exactly 1. -/
theorem rsi_equal_upmoves_w :
    (snr_analysis c9demo).rsi = 100 ∧ (snr_analysis c9demo).overbought = true :=
  rsi_equal_upmoves c9demo 1 (by decide) (by norm_num)
    (by intro k hk; fin_cases hk <;> norm_num [closeAt, c9demo, flatBar])

/-- Claim C10: with at least 20 but fewer than 50 bars, the 50-bar mean is
still NaN at the latest row, the bullish comparison can never hold, so the
market structure is "bearish" whatever the prices — and the
recommendation can then never be "buy". -/
theorem sub50_bearish (sq : ℚ → ℚ) (df : List Bar) (h20 : 20 ≤ df.length)
    (h50 : df.length < 50) :
    (smc_analysis sq df).market_structure = "bearish" ∧
    (smc_analysis sq df).recommendation ≠ "buy" := by
  have htrend : sma20gtSma50 df = false := by
    unfold sma20gtSma50 sma50lastOpt
    rw [if_neg (by omega)]
  have hms : (smc_analysis sq df).market_structure =
      if sma20gtSma50 df then "bullish" else "bearish" := by
    unfold smc_analysis
    rw [if_neg (by omega)]
  have hrec : (smc_analysis sq df).recommendation =
      (if (if sma20gtSma50 df then "bullish" else "bearish") = "bullish" ∧
          lastClose df > sma20last df then "buy"
       else if (if sma20gtSma50 df then "bullish" else "bearish") = "bearish" ∧
          lastClose df < sma20last df then "sell"
       else "neutral") := by
    unfold smc_analysis
    rw [if_neg (by omega)]
  constructor
  · simp [hms, htrend]
  · rw [hrec, htrend]
    simp only [Bool.false_eq_true, if_false]
    split_ifs <;> simp_all

/-- Witness for C10 at twenty flat bars. -/
theorem sub50_bearish_w :
    (smc_analysis (fun _ => 0) demo20).market_structure = "bearish" ∧
    (smc_analysis (fun _ => 0) demo20).recommendation ≠ "buy" :=
  sub50_bearish _ demo20 (by decide) (by decide)
